import Mathlib

/-!
Shallow embedding of the authentication and storage core of the
`expressjs-starter` repository (Express + TypeScript CRUD/auth backend).

The embedded code comes from:
* `src/server/auth.ts` — `hashPassword`, `comparePasswords`, the Passport
  LocalStrategy, and the register/login/current-user HTTP handlers
  (the modular variant in `src/server/src/middleware/auth.middleware.ts` and
  `src/server/src/controllers/auth.controller.ts` duplicates these, with the
  register controller adding zod validation and returning 409 on duplicates);
* `src/server/storage.ts` — the in-memory `MemStorage` implementation;
* `src/shared/schema.ts` — `UserStatus`, `UserRole`, `insertUserSchema`.

JavaScript strings are modelled as Lean `String` (a wrapper around
`List Char`); `Buffer` values are `List (Fin 256)`.  Node's `scrypt` is an
external cryptographic primitive, so it is a parameter of the embedding
(`KDFFun`); `randomBytes(16)` is modelled by passing the fresh salt bytes as
an explicit argument; `new Date()` by an explicit `now : Nat` timestamp.
-/

/-- JS `Buffer` contents: a list of bytes. -/
abbrev Bytes := List (Fin 256)

/-- The external key-derivation function (Node `scrypt` with keylen 64):
takes the password and the salt string, returns the derived key bytes. -/
abbrev KDFFun := String → String → Bytes

/-- The lowercase hex digit character for a value `n < 16` (as produced by
`Buffer.toString("hex")`): `0`-`9` for values below ten, `a`-`f` above. -/
def hexDigitChar (n : Nat) : Char :=
  if n < 10 then Char.ofNat ('0'.toNat + n) else Char.ofNat ('a'.toNat + n - 10)

/-- Hex encoding of one byte: high nibble then low nibble. -/
def byteToHex (b : Fin 256) : List Char :=
  [hexDigitChar (b.val / 16), hexDigitChar (b.val % 16)]

/-- Embeds `Buffer.toString("hex")` at the character-list level. -/
def bytesToHexList : Bytes → List Char
  | [] => []
  | b :: bs => byteToHex b ++ bytesToHexList bs

/-- Embeds `Buffer.toString("hex")`. -/
def bytesToHex (bs : Bytes) : String := ⟨bytesToHexList bs⟩

/-- The numeric value of a hex digit character, accepting the digit ranges
`Buffer.from(·, "hex")` accepts (0-9, a-f, A-F). -/
def hexCharVal (c : Char) : Option (Fin 16) :=
  if '0' ≤ c ∧ c ≤ '9' then
    some ⟨(c.toNat - '0'.toNat) % 16, Nat.mod_lt _ (by norm_num)⟩
  else if 'a' ≤ c ∧ c ≤ 'f' then
    some ⟨(c.toNat - 'a'.toNat + 10) % 16, Nat.mod_lt _ (by norm_num)⟩
  else if 'A' ≤ c ∧ c ≤ 'F' then
    some ⟨(c.toNat - 'A'.toNat + 10) % 16, Nat.mod_lt _ (by norm_num)⟩
  else none

/-- Combine a high and a low nibble into a byte. -/
def mkByte (h l : Fin 16) : Fin 256 :=
  ⟨h.val * 16 + l.val, by have := h.isLt; have := l.isLt; omega⟩

/-- Embeds `Buffer.from(·, "hex")` at the character-list level: consume pairs of hex
digits, stopping at the first invalid pair or odd trailing character. -/
def hexToBytesList : List Char → Bytes
  | c1 :: c2 :: rest =>
    match hexCharVal c1, hexCharVal c2 with
    | some h, some l => mkByte h l :: hexToBytesList rest
    | _, _ => []
  | _ => []

/-- JS `String.prototype.startsWith`. -/
def jsStartsWith (s pre : String) : Bool := pre.data.isPrefixOf s.data

/-- JS `String.prototype.split(".")` at the character-list level. -/
def splitOnDotList : List Char → List (List Char)
  | [] => [[]]
  | c :: rest =>
    if c = '.' then [] :: splitOnDotList rest
    else
      match splitOnDotList rest with
      | [] => [[c]]
      | r :: rs => (c :: r) :: rs

/-- Embeds `hashPassword` from `src/server/auth.ts` (= the copy in
`src/server/src/middleware/auth.middleware.ts`):

```ts
const salt = randomBytes(16).toString("hex");
const buf = (await scryptAsync(password, salt, 64)) as Buffer;
return `${buf.toString("hex")}.${salt}`;
```

The random 16 bytes are the explicit `saltBytes` argument. -/
def hashPassword (kdf : KDFFun) (password : String) (saltBytes : Bytes) : String :=
  let salt := bytesToHex saltBytes
  ⟨bytesToHexList (kdf password salt) ++ '.' :: salt.data⟩

/-- Embeds `comparePasswords` from `src/server/auth.ts`:

```ts
if (stored.startsWith("$2a$")) { return supplied === "admin123"; }
const [hashed, salt] = stored.split(".");
if (!hashed || !salt) { return false; }
const hashedBuf = Buffer.from(hashed, "hex");
const suppliedBuf = (await scryptAsync(supplied, salt, 64)) as Buffer;
if (hashedBuf.length !== suppliedBuf.length) { return false; }
return timingSafeEqual(hashedBuf, suppliedBuf);
```
-/
def comparePasswords (kdf : KDFFun) (supplied stored : String) : Bool :=
  if jsStartsWith stored "$2a$" then supplied == "admin123"
  else
    match splitOnDotList stored.data with
    | hashed :: salt :: _ =>
      if hashed.isEmpty || salt.isEmpty then false
      else
        let hashedBuf := hexToBytesList hashed
        let suppliedBuf := kdf supplied (⟨salt⟩ : String)
        if hashedBuf.length ≠ suppliedBuf.length then false
        else hashedBuf == suppliedBuf
    | _ => false

/-! ## Data model (`src/shared/schema.ts`) -/

namespace UserRole

/-- Embeds `UserRole.USER` from `src/shared/schema.ts`. -/
def USER : String := "user"

/-- Embeds `UserRole.ADMIN` from `src/shared/schema.ts`. -/
def ADMIN : String := "admin"

end UserRole

namespace UserStatus

/-- Embeds `UserStatus.ACTIVE` from `src/shared/schema.ts`. -/
def ACTIVE : String := "active"

/-- Embeds `UserStatus.DISABLED` from `src/shared/schema.ts`. -/
def DISABLED : String := "disabled"

/-- Embeds `UserStatus.SUSPENDED` from `src/shared/schema.ts`. -/
def SUSPENDED : String := "suspended"

end UserStatus

/-- A row of the `users` table (`src/shared/schema.ts`), as used by the
server code.  Timestamps are modelled as `Nat`. -/
structure User where
  id : Nat
  username : String
  email : Option String
  password : String
  role : String
  status : String
  emailVerified : Bool
  emailVerifyToken : Option String
  passwordResetToken : Option String
  passwordResetExpiry : Option Nat
  createdAt : Nat
  updatedAt : Nat
deriving DecidableEq

/-- A row of the `refresh_tokens` table (`src/shared/schema.ts`). -/
structure RefreshToken where
  id : Nat
  token : String
  userId : Nat
  expires : Nat
  createdAt : Nat
  updatedAt : Nat
deriving DecidableEq

/-- The result of the JS spread `const { password, ...userWithoutPassword } = user`:
every field of `User` except `password`. -/
structure SanitizedUser where
  id : Nat
  username : String
  email : Option String
  role : String
  status : String
  emailVerified : Bool
  emailVerifyToken : Option String
  passwordResetToken : Option String
  passwordResetExpiry : Option Nat
  createdAt : Nat
  updatedAt : Nat
deriving DecidableEq

/-- Embeds `const { password, ...userWithoutPassword } = user` — drop the password,
keep every other field. -/
def sanitizeUser (u : User) : SanitizedUser :=
  { id := u.id, username := u.username, email := u.email, role := u.role,
    status := u.status, emailVerified := u.emailVerified,
    emailVerifyToken := u.emailVerifyToken,
    passwordResetToken := u.passwordResetToken,
    passwordResetExpiry := u.passwordResetExpiry,
    createdAt := u.createdAt, updatedAt := u.updatedAt }

/-! ## In-memory storage (`src/server/storage.ts`, class `MemStorage`)

`Map<number, User>` and `Map<string, RefreshToken>` are modelled as
insertion-ordered lists keyed by `User.id` / `RefreshToken.token`
(`MemStorage` only ever inserts fresh keys, so set = append). -/

/-- The mutable state of a `MemStorage` instance. -/
structure Storage where
  users : List User
  tokens : List RefreshToken
  currentId : Nat
  tokenId : Nat
deriving DecidableEq

/-- The argument of `MemStorage.createUser`:
`InsertUser & { status?; role?; emailVerified? }` (optional fields are
`Option`, JS `undefined` = `none`). -/
structure CreateUserData where
  username : String
  email : Option String
  password : String
  role : Option String
  status : Option String
  emailVerified : Option Bool
deriving DecidableEq

/-- JS `x || fallback` for an optional string (both `undefined` and the
empty string are falsy). -/
def strOrElse (x : Option String) (fallback : String) : String :=
  match x with
  | some s => if s = "" then fallback else s
  | none => fallback

/-- Embeds `MemStorage.getUser`: `users.get(id)`. -/
def Storage.getUser (st : Storage) (id : Nat) : Option User :=
  st.users.find? (fun u => u.id = id)

/-- Embeds `MemStorage.getUserByUsername`:
`Array.from(this.users.values()).find(user => user.username === username)`. -/
def Storage.getUserByUsername (st : Storage) (username : String) : Option User :=
  st.users.find? (fun u => u.username = username)

/-- Embeds `MemStorage.createUser`: assign `id = currentId++`, fill defaults
(`email || null`, `role || USER`, `status || ACTIVE`, `emailVerified || false`),
null tokens, fresh timestamps, and insert. -/
def Storage.createUser (st : Storage) (d : CreateUserData) (now : Nat) :
    User × Storage :=
  let id := st.currentId
  let u : User :=
    { id := id
      username := d.username
      email := match d.email with
        | some e => if e = "" then none else some e
        | none => none
      password := d.password
      role := strOrElse d.role UserRole.USER
      status := strOrElse d.status UserStatus.ACTIVE
      emailVerified := d.emailVerified.getD false
      emailVerifyToken := none
      passwordResetToken := none
      passwordResetExpiry := none
      createdAt := now
      updatedAt := now }
  (u, { st with users := st.users ++ [u], currentId := st.currentId + 1 })

/-- Embeds `MemStorage.deleteUserRefreshTokens`: delete every token whose
`userId` equals the given id. -/
def Storage.deleteUserRefreshTokens (st : Storage) (userId : Nat) : Storage :=
  { st with tokens := st.tokens.filter (fun t => ¬ t.userId = userId) }

/-- Embeds `MemStorage.deleteUser`: `users.delete(id)` followed by
`deleteUserRefreshTokens(id)`. -/
def Storage.deleteUser (st : Storage) (id : Nat) : Storage :=
  let st' := { st with users := st.users.filter (fun u => ¬ u.id = id) }
  st'.deleteUserRefreshTokens id

/-! ## HTTP handlers (`src/server/auth.ts` `setupAuth`,
`src/server/src/controllers/auth.controller.ts`) -/

/-- The JSON body of a response: either `{ message }` / `{ error, message }`
(only the human-readable message is modelled) or `{ user }`. -/
inductive ResBody where
  | message (m : String)
  | user (u : SanitizedUser)
deriving DecidableEq

/-- An HTTP response: status code plus JSON body. -/
structure ApiResponse where
  status : Nat
  body : ResBody
deriving DecidableEq

/-- The request body of `POST /api/register` (and the fields of it the
handlers read).  The legacy `auth.ts` handler spreads the whole body into
`createUser`, so a client-supplied `emailVerified` flag is carried along. -/
structure RegisterBody where
  username : String
  email : Option String
  password : String
  emailVerified : Option Bool
deriving DecidableEq

/-- Outcome of the Passport `LocalStrategy` verify callback:
`done(null, false, { message })` or `done(null, user)`. -/
inductive StrategyResult where
  | failure (message : String)
  | success (u : User)
deriving DecidableEq

/-- The `LocalStrategy` verify callback from `setupAuth` in
`src/server/auth.ts` (identical in
`src/server/src/middleware/auth.middleware.ts`): look the user up by
username, check the password, then reject `DISABLED` accounts. -/
def localStrategy (kdf : KDFFun) (st : Storage) (username password : String) :
    StrategyResult :=
  match st.getUserByUsername username with
  | none => .failure "Invalid username or password"
  | some user =>
    if comparePasswords kdf password user.password = false then
      .failure "Invalid username or password"
    else if user.status = UserStatus.DISABLED then
      .failure "Account is disabled"
    else
      .success user

/-- The `POST /api/login` handler from `setupAuth` in `src/server/auth.ts`:
on strategy failure respond `401 { message: info?.message || "Authentication
failed" }`; on success `req.login(user)` (session := serialized `user.id`)
and respond `200 { user }` without the password.  The second component is
the session established by the request (`none` = no session). -/
def loginHandler (kdf : KDFFun) (st : Storage) (username password : String) :
    ApiResponse × Option Nat :=
  match localStrategy kdf st username password with
  | .failure msg =>
    (⟨401, .message (if msg = "" then "Authentication failed" else msg)⟩, none)
  | .success user =>
    (⟨200, .user (sanitizeUser user)⟩, some user.id)

/-- The legacy `POST /api/register` handler from `setupAuth` in
`src/server/auth.ts`: duplicate username → `400 { message: "Username already
exists" }`; otherwise hash the password, create the user with
`status: ACTIVE, role: USER` over the spread request body, log the user in
and respond `201 { user }` without the password.  Returns
(response, storage after the request, session established). -/
def registerHandler (kdf : KDFFun) (st : Storage) (body : RegisterBody)
    (saltBytes : Bytes) (now : Nat) : ApiResponse × Storage × Option Nat :=
  match st.getUserByUsername body.username with
  | some _ => (⟨400, .message "Username already exists"⟩, st, none)
  | none =>
    let hashedPassword := hashPassword kdf body.password saltBytes
    let userData : CreateUserData :=
      { username := body.username, email := body.email,
        password := hashedPassword, role := some UserRole.USER,
        status := some UserStatus.ACTIVE, emailVerified := body.emailVerified }
    let (user, st') := st.createUser userData now
    (⟨201, .user (sanitizeUser user)⟩, st', some user.id)

/-- Embeds `insertUserSchema.safeParse` from `src/shared/schema.ts`: username 3–50
characters, optional email validated by zod's email check (the zod library
is external, so the email predicate is the `emailOk` parameter), password
8–100 characters.  zod `pick` strips the other fields of the body. -/
def validateInsertUser (emailOk : String → Bool) (body : RegisterBody) :
    Option CreateUserData :=
  if 3 ≤ body.username.length ∧ body.username.length ≤ 50 ∧
      8 ≤ body.password.length ∧ body.password.length ≤ 100 ∧
      body.email.all emailOk = true then
    some { username := body.username, email := body.email,
           password := body.password, role := none, status := none,
           emailVerified := none }
  else none

/-- The modular `POST /api/register` controller (`register` in
`src/server/src/controllers/auth.controller.ts`, mounted at
`/api/register` by `src/server/src/routes/auth.routes.ts`, the entry point
the repository's `server/index.ts` runs): validate the body against
`insertUserSchema` (`400` on failure), then duplicate username →
`409 { message: "Username already exists" }`; otherwise hash, create with
`status: ACTIVE, role: USER`, log in, `201 { user }` without the password. -/
def registerController (emailOk : String → Bool) (kdf : KDFFun) (st : Storage)
    (body : RegisterBody) (saltBytes : Bytes) (now : Nat) :
    ApiResponse × Storage × Option Nat :=
  match validateInsertUser emailOk body with
  | none => (⟨400, .message "Invalid registration data"⟩, st, none)
  | some validatedData =>
    match st.getUserByUsername validatedData.username with
    | some _ => (⟨409, .message "Username already exists"⟩, st, none)
    | none =>
      let hashedPassword := hashPassword kdf validatedData.password saltBytes
      let userData : CreateUserData :=
        { username := validatedData.username, email := validatedData.email,
          password := hashedPassword, role := some UserRole.USER,
          status := some UserStatus.ACTIVE, emailVerified := none }
      let (user, st') := st.createUser userData now
      (⟨201, .user (sanitizeUser user)⟩, st', some user.id)

/-- The `GET /api/user` handler from `setupAuth` in `src/server/auth.ts`:
`req.user` (the session's deserialized user) is the argument; absent →
`401`, present → `200 { user }` without the password. -/
def getCurrentUserHandler (reqUser : Option User) : ApiResponse :=
  match reqUser with
  | none => ⟨401, .message "Not authenticated"⟩
  | some u => ⟨200, .user (sanitizeUser u)⟩

/-! ## Concrete instances used to exercise the definitions -/

/-- A degenerate concrete KDF instance (constant 64-byte key), used to
evaluate the handlers on concrete inputs where the key derivation is
irrelevant (the seeded admin account uses the bcrypt-style branch). -/
def kdf0 : KDFFun := fun _ _ => List.replicate 64 0

/-- A concrete KDF instance that distinguishes the password
`"correct horse"` from every other password: collision-free at that point
and always 64 bytes long. -/
def kdf1 : KDFFun := fun pw _ =>
  if pw = "correct horse" then List.replicate 64 0 else 1 :: List.replicate 63 0

/-- A concrete 16-byte salt (the embedding of one draw of `randomBytes(16)`). -/
def salt16 : Bytes := List.replicate 16 0

/-- A concrete accepting email validator instance. -/
def emailOk0 : String → Bool := fun _ => true

/-- The admin user seeded by the `MemStorage` constructor
(`src/server/storage.ts`): id 1, bcrypt-style password hash, role admin,
status active, verified email. -/
def adminUser : User :=
  { id := 1, username := "admin",
    email := some "admin@example.com",
    password := "$2a$12$o2.RN5V66LGDWZfzj/RB.etT9h7M/q7zi6GccdYd6Q6YzU.m1zJJu",
    role := UserRole.ADMIN, status := UserStatus.ACTIVE, emailVerified := true,
    emailVerifyToken := none, passwordResetToken := none,
    passwordResetExpiry := none, createdAt := 0, updatedAt := 0 }

/-- The `MemStorage` state right after its constructor ran: the admin user
is stored and `currentId` has advanced to 2. -/
def st0 : Storage := { users := [adminUser], tokens := [], currentId := 2, tokenId := 1 }

/-- A disabled user whose stored hash takes the bcrypt-style branch, so the
password `"admin123"` verifies against it. -/
def daveUser : User :=
  { id := 2, username := "dave", email := none, password := "$2a$stub",
    role := UserRole.USER, status := UserStatus.DISABLED, emailVerified := false,
    emailVerifyToken := none, passwordResetToken := none,
    passwordResetExpiry := none, createdAt := 0, updatedAt := 0 }

/-- A suspended user whose stored hash takes the bcrypt-style branch. -/
def sueUser : User :=
  { id := 3, username := "sue", email := none, password := "$2a$stub",
    role := UserRole.USER, status := UserStatus.SUSPENDED, emailVerified := false,
    emailVerifyToken := none, passwordResetToken := none,
    passwordResetExpiry := none, createdAt := 0, updatedAt := 0 }

/-- A storage state holding the admin, a disabled and a suspended user. -/
def st1 : Storage :=
  { users := [adminUser, daveUser, sueUser], tokens := [], currentId := 4, tokenId := 1 }

/-- A registration body whose password fails the `insertUserSchema` length
bound (shorter than 8 characters) while its username duplicates the stored
admin user. -/
def regBodyShort : RegisterBody :=
  { username := "admin", email := none, password := "short", emailVerified := none }

/-- A registration body that passes `insertUserSchema` validation while its
username duplicates the stored admin user. -/
def regBodyDupValid : RegisterBody :=
  { username := "admin", email := none, password := "password123", emailVerified := none }

/-- A fresh, valid registration body. -/
def regBodyBob : RegisterBody :=
  { username := "bob", email := some "bob@example.com", password := "password123",
    emailVerified := none }

/-! ## Helper lemmas about the hex and split embeddings -/

/-- Every hex digit character of a nibble value is not a dot. -/
theorem hexDigitChar_ne_dot : ∀ n, n < 16 → hexDigitChar n ≠ '.' := by decide

/-- Every hex digit character of a nibble value is not a dollar sign. -/
theorem hexDigitChar_ne_dollar : ∀ n, n < 16 → hexDigitChar n ≠ '$' := by decide

/-- Decoding a hex digit character gives back the nibble value. -/
theorem hexCharVal_hexDigitChar : ∀ n : Fin 16, hexCharVal (hexDigitChar n.val) = some n := by
  decide

/-- Hex encoding never produces a dot. -/
theorem dot_not_mem_bytesToHexList (bs : Bytes) : '.' ∉ bytesToHexList bs := by
  induction bs with
  | nil => simp [bytesToHexList]
  | cons b bs ih =>
    simp only [bytesToHexList, byteToHex, List.cons_append, List.nil_append,
      List.mem_cons]
    push_neg
    refine ⟨?_, ?_, fun h => ih h⟩
    · exact fun h => hexDigitChar_ne_dot _ (Nat.div_lt_of_lt_mul (by omega)) h.symm
    · exact fun h => hexDigitChar_ne_dot _ (Nat.mod_lt _ (by omega)) h.symm

/-- The length of a hex encoding is twice the byte count. -/
theorem bytesToHexList_length (bs : Bytes) :
    (bytesToHexList bs).length = 2 * bs.length := by
  induction bs with
  | nil => simp [bytesToHexList]
  | cons b bs ih =>
    simp [bytesToHexList, byteToHex, ih]
    omega

/-- Hex decoding inverts hex encoding. -/
theorem hexToBytesList_bytesToHexList (bs : Bytes) :
    hexToBytesList (bytesToHexList bs) = bs := by
  induction bs with
  | nil => simp [bytesToHexList, hexToBytesList]
  | cons b bs ih =>
    have hdiv : b.val / 16 < 16 := Nat.div_lt_of_lt_mul (by have := b.isLt; omega)
    have hmod : b.val % 16 < 16 := Nat.mod_lt _ (by omega)
    have h1 := hexCharVal_hexDigitChar ⟨b.val / 16, hdiv⟩
    have h2 := hexCharVal_hexDigitChar ⟨b.val % 16, hmod⟩
    simp only [bytesToHexList, byteToHex, List.cons_append, List.nil_append]
    simp only [hexToBytesList, h1, h2, ih]
    congr 1
    apply Fin.ext
    simp [mkByte]
    omega

/-- Splitting on dots never yields the empty list of fragments. -/
theorem splitOnDotList_ne_nil (l : List Char) : splitOnDotList l ≠ [] := by
  induction l with
  | nil => simp [splitOnDotList]
  | cons c rest ih =>
    simp only [splitOnDotList]
    by_cases h : c = '.'
    · simp [h]
    · simp only [h, if_false]
      cases hr : splitOnDotList rest <;> simp

/-- A dot-free fragment splits into itself. -/
theorem splitOnDotList_no_dot (l : List Char) (h : '.' ∉ l) :
    splitOnDotList l = [l] := by
  induction l with
  | nil => simp [splitOnDotList]
  | cons c rest ih =>
    simp only [List.mem_cons] at h
    push_neg at h
    simp only [splitOnDotList, Ne.symm h.1, if_false, ih h.2]

/-- Splitting a dot-free prefix, a dot, then a remainder gives the prefix as
first fragment, followed by the split of the remainder. -/
theorem splitOnDotList_append (a b : List Char) (ha : '.' ∉ a) :
    splitOnDotList (a ++ '.' :: b) = a :: splitOnDotList b := by
  induction a with
  | nil => simp [splitOnDotList]
  | cons c rest ih =>
    simp only [List.mem_cons] at ha
    push_neg at ha
    simp only [List.cons_append, splitOnDotList, Ne.symm ha.1, if_false,
      List.append_eq, ih ha.2]

/-- A string that begins with a hex-encoded byte does not start with
`"$2a$"`. -/
theorem jsStartsWith_hex_dollar_false (key : Bytes) (rest : List Char)
    (hk : key ≠ []) :
    jsStartsWith ⟨bytesToHexList key ++ rest⟩ "$2a$" = false := by
  cases key with
  | nil => exact absurd rfl hk
  | cons b bs =>
    have hdiv : b.val / 16 < 16 := Nat.div_lt_of_lt_mul (by have := b.isLt; omega)
    have hne : hexDigitChar (b.val / 16) ≠ '$' := hexDigitChar_ne_dollar _ hdiv
    show (("$2a$").data.isPrefixOf _) = false
    have hdata : "$2a$".data = ['$', '2', 'a', '$'] := rfl
    rw [hdata]
    simp only [bytesToHexList, byteToHex, List.cons_append, List.nil_append]
    simp [List.isPrefixOf]
    intro hc
    exact absurd hc.symm hne

/-- Unfolding lemma: the character data of a hex-encoded buffer. -/
theorem bytesToHex_data (bs : Bytes) : (bytesToHex bs).data = bytesToHexList bs := rfl

/-- Refolding lemma: wrapping hex character data back into a string. -/
theorem mk_bytesToHexList (bs : Bytes) :
    (⟨bytesToHexList bs⟩ : String) = bytesToHex bs := rfl

/-- Core functional characterisation of password verification against a hash
freshly produced by `hashPassword`: the stored key is recovered from its hex
encoding and compared with the re-derived key, so the comparison succeeds
exactly when the two derived keys coincide. -/
theorem comparePasswords_hashPassword_eq (kdf : KDFFun) (p q : String)
    (saltBytes : Bytes) (hsalt : saltBytes ≠ [])
    (hlen : (kdf p (bytesToHex saltBytes)).length = 64) :
    comparePasswords kdf q (hashPassword kdf p saltBytes) =
      (kdf p (bytesToHex saltBytes) == kdf q (bytesToHex saltBytes)) := by
  have hknil : kdf p (bytesToHex saltBytes) ≠ [] := by
    intro h
    rw [h] at hlen
    simp at hlen
  have hkeyne : bytesToHexList (kdf p (bytesToHex saltBytes)) ≠ [] := by
    intro h
    have hl := bytesToHexList_length (kdf p (bytesToHex saltBytes))
    rw [h, hlen] at hl
    simp at hl
  have hsaltne : bytesToHexList saltBytes ≠ [] := by
    intro h
    have hl := bytesToHexList_length saltBytes
    rw [h] at hl
    cases saltBytes with
    | nil => exact absurd rfl hsalt
    | cons a l => simp at hl
  have hkeyE : (bytesToHexList (kdf p (bytesToHex saltBytes))).isEmpty = false := by
    cases h : bytesToHexList (kdf p (bytesToHex saltBytes)) with
    | nil => exact absurd h hkeyne
    | cons a l => rfl
  have hsaltE : (bytesToHexList saltBytes).isEmpty = false := by
    cases h : bytesToHexList saltBytes with
    | nil => exact absurd h hsaltne
    | cons a l => rfl
  have hstart := jsStartsWith_hex_dollar_false (kdf p (bytesToHex saltBytes))
    ('.' :: bytesToHexList saltBytes) hknil
  have hsplit : splitOnDotList
      (bytesToHexList (kdf p (bytesToHex saltBytes)) ++ '.' :: bytesToHexList saltBytes) =
      [bytesToHexList (kdf p (bytesToHex saltBytes)), bytesToHexList saltBytes] := by
    rw [splitOnDotList_append _ _ (dot_not_mem_bytesToHexList _),
      splitOnDotList_no_dot _ (dot_not_mem_bytesToHexList _)]
  simp only [comparePasswords, hashPassword, bytesToHex_data, hstart, Bool.false_eq_true,
    if_false, hsplit, hkeyE, hsaltE, Bool.or_self, hexToBytesList_bytesToHexList,
    mk_bytesToHexList]
  by_cases hl : (kdf p (bytesToHex saltBytes)).length = (kdf q (bytesToHex saltBytes)).length
  · rw [if_neg (by simp [hl])]
  · rw [if_pos hl]
    have hne : kdf p (bytesToHex saltBytes) ≠ kdf q (bytesToHex saltBytes) :=
      fun h => hl (by rw [h])
    exact (beq_eq_false_iff_ne.mpr hne).symm

/-! ## Claim theorems -/

/-- C5: for every supplied string and every stored string beginning with
`"$2a$"`, `comparePasswords` returns true exactly when the supplied string
is the hardcoded `"admin123"`, regardless of the rest of the stored hash. -/
theorem C5_bcrypt_special_case (kdf : KDFFun) (supplied stored : String)
    (h : jsStartsWith stored "$2a$" = true) :
    comparePasswords kdf supplied stored = (supplied == "admin123") := by
  simp [comparePasswords, h]

/-- Witness for C5 at the seeded admin hash: the hypothesis holds and the
comparison degenerates to equality with `"admin123"`. -/
theorem C5_bcrypt_special_case_witness :
    jsStartsWith adminUser.password "$2a$" = true ∧
    comparePasswords kdf0 "admin123" adminUser.password = ("admin123" == "admin123") :=
  ⟨by decide, C5_bcrypt_special_case kdf0 "admin123" adminUser.password (by decide)⟩

/-- C2: for a password of 8–100 characters hashed with a fresh 16-byte salt,
verification succeeds for the original password; assuming the key-derivation
function (external `scrypt`, abstracted as `kdf`) is collision-free at this
salt, verification fails for every other supplied string. -/
theorem C2_password_roundtrip (kdf : KDFFun) (p q : String) (saltBytes : Bytes)
    (hp1 : 8 ≤ p.length) (hp2 : p.length ≤ 100)
    (hsalt : saltBytes.length = 16)
    (hkdf64 : ∀ pw s, (kdf pw s).length = 64)
    (hnocoll : ∀ r, r ≠ p → kdf r (bytesToHex saltBytes) ≠ kdf p (bytesToHex saltBytes))
    (hq : q ≠ p) :
    comparePasswords kdf p (hashPassword kdf p saltBytes) = true ∧
    comparePasswords kdf q (hashPassword kdf p saltBytes) = false := by
  have hsne : saltBytes ≠ [] := by
    intro h
    rw [h] at hsalt
    simp at hsalt
  constructor
  · rw [comparePasswords_hashPassword_eq kdf p p saltBytes hsne (hkdf64 _ _)]
    exact beq_self_eq_true _
  · rw [comparePasswords_hashPassword_eq kdf p q saltBytes hsne (hkdf64 _ _)]
    exact beq_eq_false_iff_ne.mpr fun h => hnocoll q hq h.symm

/-- Witness for C2 at a concrete collision-free KDF instance, password and
salt: the round trip verifies and a different password is rejected. -/
theorem C2_password_roundtrip_witness :
    ("wrong horsey" : String) ≠ "correct horse" ∧
    (comparePasswords kdf1 "correct horse" (hashPassword kdf1 "correct horse" salt16) = true ∧
     comparePasswords kdf1 "wrong horsey" (hashPassword kdf1 "correct horse" salt16) = false) :=
  ⟨by decide,
   C2_password_roundtrip kdf1 "correct horse" "wrong horsey" salt16
     (by decide) (by decide) (by decide)
     (fun pw s => by by_cases h : pw = "correct horse" <;> simp [kdf1, h])
     (fun r hr => by simp [kdf1, hr, List.replicate_succ])
     (by decide)⟩

/-- C8: `hashPassword` produces `hash.salt` — splitting at the dot recovers
the hex encoding of the 64-byte derived key (128 hex characters) and the hex
encoding of the 16 salt bytes (32 hex characters), and both hex parts decode
back to the original byte buffers. -/
theorem C8_hashPassword_format (kdf : KDFFun) (p : String) (saltBytes : Bytes)
    (hsalt : saltBytes.length = 16)
    (hkdf : (kdf p (bytesToHex saltBytes)).length = 64) :
    (hashPassword kdf p saltBytes).data =
      bytesToHexList (kdf p (bytesToHex saltBytes)) ++ '.' :: bytesToHexList saltBytes ∧
    splitOnDotList (hashPassword kdf p saltBytes).data =
      [bytesToHexList (kdf p (bytesToHex saltBytes)), bytesToHexList saltBytes] ∧
    (bytesToHexList (kdf p (bytesToHex saltBytes))).length = 128 ∧
    (bytesToHexList saltBytes).length = 32 ∧
    hexToBytesList (bytesToHexList (kdf p (bytesToHex saltBytes))) =
      kdf p (bytesToHex saltBytes) ∧
    hexToBytesList (bytesToHexList saltBytes) = saltBytes := by
  refine ⟨rfl, ?_, ?_, ?_, hexToBytesList_bytesToHexList _, hexToBytesList_bytesToHexList _⟩
  · show splitOnDotList
        (bytesToHexList (kdf p (bytesToHex saltBytes)) ++ '.' :: bytesToHexList saltBytes) = _
    rw [splitOnDotList_append _ _ (dot_not_mem_bytesToHexList _),
      splitOnDotList_no_dot _ (dot_not_mem_bytesToHexList _)]
  · rw [bytesToHexList_length, hkdf]
  · rw [bytesToHexList_length, hsalt]

/-- Witness for C8 at a concrete KDF, password and 16-byte salt. -/
theorem C8_hashPassword_format_witness :
    salt16.length = 16 ∧
    splitOnDotList (hashPassword kdf0 "hunter2hunter2" salt16).data =
      [bytesToHexList (kdf0 "hunter2hunter2" (bytesToHex salt16)), bytesToHexList salt16] :=
  ⟨by decide,
   (C8_hashPassword_format kdf0 "hunter2hunter2" salt16 (by decide) (by decide)).2.1⟩

/-- C6: `deleteUser id` removes exactly the user with that id and exactly
the refresh tokens whose `userId` is that id; every other user and every
other refresh token survives unchanged, and the id counters are untouched. -/
theorem C6_deleteUser_frame (st : Storage) (id : Nat) :
    (∀ u : User, u ∈ (st.deleteUser id).users ↔ (u ∈ st.users ∧ u.id ≠ id)) ∧
    (∀ t : RefreshToken, t ∈ (st.deleteUser id).tokens ↔ (t ∈ st.tokens ∧ t.userId ≠ id)) ∧
    (st.deleteUser id).currentId = st.currentId ∧
    (st.deleteUser id).tokenId = st.tokenId := by
  refine ⟨fun u => ?_, fun t => ?_, rfl, rfl⟩ <;>
    simp [Storage.deleteUser, Storage.deleteUserRefreshTokens, List.mem_filter]

/-- C4: a login attempt whose username matches no stored user and a login
attempt whose password fails verification produce identical results — the
same 401 response with the message "Invalid username or password" and no
session — so the response does not reveal which check failed. -/
theorem C4_login_failures_identical (kdf : KDFFun) (st : Storage)
    (name1 pw1 name2 pw2 : String) (usr : User)
    (h1 : st.getUserByUsername name1 = none)
    (h2 : st.getUserByUsername name2 = some usr)
    (h3 : comparePasswords kdf pw2 usr.password = false) :
    loginHandler kdf st name1 pw1 = loginHandler kdf st name2 pw2 ∧
    loginHandler kdf st name1 pw1 =
      (⟨401, .message "Invalid username or password"⟩, none) := by
  simp [loginHandler, localStrategy, h1, h2, h3]

/-- Witness for C4: unknown user `"nobody"` versus wrong password for the
stored admin produce the same response. -/
theorem C4_login_failures_identical_witness :
    st0.getUserByUsername "nobody" = none ∧
    st0.getUserByUsername "admin" = some adminUser ∧
    (loginHandler kdf0 st0 "nobody" "whatever" = loginHandler kdf0 st0 "admin" "wrongpass" ∧
     loginHandler kdf0 st0 "nobody" "whatever" =
       (⟨401, .message "Invalid username or password"⟩, none)) :=
  ⟨by decide, by decide,
   C4_login_failures_identical kdf0 st0 "nobody" "whatever" "admin" "wrongpass" adminUser
     (by decide) (by decide) (by decide)⟩

/-- C3 counterexample: a disabled user logging in with the correct password
receives HTTP 401, not the 403 the claim states (the Passport login handler
maps every strategy failure to 401). -/
theorem C3_counterexample :
    (loginHandler kdf0 st1 "dave" "admin123").1.status = 401 ∧
    (loginHandler kdf0 st1 "dave" "admin123").1.body = .message "Account is disabled" ∧
    (loginHandler kdf0 st1 "dave" "admin123").1.status ≠ 403 := by decide

/-- C3 (amended): a disabled user logging in with the correct password gets
no session and the distinct message "Account is disabled", with HTTP status
401 (not 403). -/
theorem C3_disabled_login (kdf : KDFFun) (st : Storage) (uname pw : String) (u : User)
    (h1 : st.getUserByUsername uname = some u)
    (h2 : comparePasswords kdf pw u.password = true)
    (h3 : u.status = UserStatus.DISABLED) :
    loginHandler kdf st uname pw = (⟨401, .message "Account is disabled"⟩, none) := by
  simp [loginHandler, localStrategy, h1, h2, h3]

/-- Witness for the amended C3 at the concrete disabled user. -/
theorem C3_disabled_login_witness :
    daveUser.status = UserStatus.DISABLED ∧
    comparePasswords kdf0 "admin123" daveUser.password = true ∧
    loginHandler kdf0 st1 "dave" "admin123" =
      (⟨401, .message "Account is disabled"⟩, none) :=
  ⟨by decide, by decide,
   C3_disabled_login kdf0 st1 "dave" "admin123" daveUser
     (by decide) (by decide) (by decide)⟩

/-- C10: any stored user whose status is not exactly `"disabled"` (for
example `"suspended"`) logs in successfully with correct credentials: the
response is 200 with the sanitized user and a session is established. -/
theorem C10_only_disabled_blocks (kdf : KDFFun) (st : Storage) (uname pw : String) (u : User)
    (h1 : st.getUserByUsername uname = some u)
    (h2 : comparePasswords kdf pw u.password = true)
    (h3 : u.status ≠ UserStatus.DISABLED) :
    loginHandler kdf st uname pw = (⟨200, .user (sanitizeUser u)⟩, some u.id) := by
  simp [loginHandler, localStrategy, h1, h2, h3]

/-- Witness for C10 at the concrete suspended user `"sue"`. -/
theorem C10_only_disabled_blocks_witness :
    sueUser.status = UserStatus.SUSPENDED ∧
    sueUser.status ≠ UserStatus.DISABLED ∧
    loginHandler kdf0 st1 "sue" "admin123" =
      (⟨200, .user (sanitizeUser sueUser)⟩, some sueUser.id) :=
  ⟨by decide, by decide,
   C10_only_disabled_blocks kdf0 st1 "sue" "admin123" sueUser
     (by decide) (by decide) (by decide)⟩

/-- C1 counterexample: a registration request whose username duplicates the
stored admin but whose password fails the schema's 8-character minimum gets
HTTP 400 (validation error) from the register controller, not the 409 the
claim states for every duplicate-username request. -/
theorem C1_counterexample :
    st0.getUserByUsername regBodyShort.username = some adminUser ∧
    (registerController emailOk0 kdf0 st0 regBodyShort salt16 7).1.status = 400 ∧
    (registerController emailOk0 kdf0 st0 regBodyShort salt16 7).1.status ≠ 409 := by
  decide

/-- C1 (amended): every registration request that passes `insertUserSchema`
validation and whose username equals a stored user's username gets HTTP 409
from the register controller, with storage left entirely unchanged (no new
user, existing record untouched) and no session established.  (The legacy
`setupAuth` register handler in `src/server/auth.ts` responds 400 in this
situation instead; the modular controller is what the repository's entry
point serves.) -/
theorem C1_register_duplicate_conflict (emailOk : String → Bool) (kdf : KDFFun)
    (st : Storage) (body : RegisterBody) (salt : Bytes) (now : Nat)
    (d : CreateUserData) (ex : User)
    (hval : validateInsertUser emailOk body = some d)
    (hdup : st.getUserByUsername d.username = some ex) :
    registerController emailOk kdf st body salt now =
      (⟨409, .message "Username already exists"⟩, st, none) := by
  simp [registerController, hval, hdup]

/-- Witness for the amended C1: a schema-valid duplicate registration for
`"admin"` is rejected with 409 and the storage is unchanged. -/
theorem C1_register_duplicate_conflict_witness :
    validateInsertUser emailOk0 regBodyDupValid =
      some { username := "admin", email := none, password := "password123",
             role := none, status := none, emailVerified := none } ∧
    registerController emailOk0 kdf0 st0 regBodyDupValid salt16 7 =
      (⟨409, .message "Username already exists"⟩, st0, none) :=
  ⟨by decide,
   C1_register_duplicate_conflict emailOk0 kdf0 st0 regBodyDupValid salt16 7
     { username := "admin", email := none, password := "password123",
       role := none, status := none, emailVerified := none }
     adminUser (by decide) (by decide)⟩

/-- C7: the success responses of register (201), login (200) and
current-user (200) all carry the stored user sanitized by dropping the
password; `sanitizeUser` (the embedding of the
`const { password, ...userWithoutPassword }` spread) returns every field
other than the password unchanged, and its result type has no password
field at all. -/
theorem C7_success_responses_sanitized (kdf : KDFFun) (st : Storage)
    (body : RegisterBody) (salt : Bytes) (now : Nat) (uname pw : String) (u : User)
    (hreg : st.getUserByUsername body.username = none)
    (hlog1 : st.getUserByUsername uname = some u)
    (hlog2 : comparePasswords kdf pw u.password = true)
    (hlog3 : u.status ≠ UserStatus.DISABLED) :
    (∃ newUser : User,
      registerHandler kdf st body salt now =
        (⟨201, .user (sanitizeUser newUser)⟩,
         { st with users := st.users ++ [newUser], currentId := st.currentId + 1 },
         some newUser.id)) ∧
    loginHandler kdf st uname pw = (⟨200, .user (sanitizeUser u)⟩, some u.id) ∧
    getCurrentUserHandler (some u) = ⟨200, .user (sanitizeUser u)⟩ ∧
    (∀ w : User,
      (sanitizeUser w).id = w.id ∧ (sanitizeUser w).username = w.username ∧
      (sanitizeUser w).email = w.email ∧ (sanitizeUser w).role = w.role ∧
      (sanitizeUser w).status = w.status ∧
      (sanitizeUser w).emailVerified = w.emailVerified ∧
      (sanitizeUser w).emailVerifyToken = w.emailVerifyToken ∧
      (sanitizeUser w).passwordResetToken = w.passwordResetToken ∧
      (sanitizeUser w).passwordResetExpiry = w.passwordResetExpiry ∧
      (sanitizeUser w).createdAt = w.createdAt ∧
      (sanitizeUser w).updatedAt = w.updatedAt) := by
  refine ⟨?_, ?_, rfl, fun w => ⟨rfl, rfl, rfl, rfl, rfl, rfl, rfl, rfl, rfl, rfl, rfl⟩⟩
  · refine ⟨(st.createUser
      { username := body.username, email := body.email,
        password := hashPassword kdf body.password salt, role := some UserRole.USER,
        status := some UserStatus.ACTIVE, emailVerified := body.emailVerified } now).1, ?_⟩
    simp only [registerHandler, hreg]
    rfl
  · simp [loginHandler, localStrategy, hlog1, hlog2, hlog3]

/-- Witness for C7: registering `"bob"` against the seeded storage and
logging in as admin both return sanitized users. -/
theorem C7_success_responses_sanitized_witness :
    st0.getUserByUsername regBodyBob.username = none ∧
    ((∃ newUser : User,
       registerHandler kdf0 st0 regBodyBob salt16 7 =
         (⟨201, .user (sanitizeUser newUser)⟩,
          { st0 with users := st0.users ++ [newUser], currentId := st0.currentId + 1 },
          some newUser.id)) ∧
     loginHandler kdf0 st0 "admin" "admin123" =
       (⟨200, .user (sanitizeUser adminUser)⟩, some adminUser.id) ∧
     getCurrentUserHandler (some adminUser) = ⟨200, .user (sanitizeUser adminUser)⟩ ∧
     (∀ w : User,
       (sanitizeUser w).id = w.id ∧ (sanitizeUser w).username = w.username ∧
       (sanitizeUser w).email = w.email ∧ (sanitizeUser w).role = w.role ∧
       (sanitizeUser w).status = w.status ∧
       (sanitizeUser w).emailVerified = w.emailVerified ∧
       (sanitizeUser w).emailVerifyToken = w.emailVerifyToken ∧
       (sanitizeUser w).passwordResetToken = w.passwordResetToken ∧
       (sanitizeUser w).passwordResetExpiry = w.passwordResetExpiry ∧
       (sanitizeUser w).createdAt = w.createdAt ∧
       (sanitizeUser w).updatedAt = w.updatedAt)) :=
  ⟨by decide,
   C7_success_responses_sanitized kdf0 st0 regBodyBob salt16 7 "admin" "admin123" adminUser
     (by decide) (by decide) (by decide) (by decide)⟩
